import Mathlib

/-!
Shallow embedding of the counting pipeline of `src/JC.PY` (class `VideoThread`).

The program is a PyQt application that reads frames from a camera or video
file, runs an external detector that returns `(box, track_id)` pairs, and
counts each tracked object once when its bounding-box bottom edge passes a
count line near the frame bottom.

Modelling decisions:
* Python machine state of `VideoThread.__init__` (lines 41-73) becomes the
  structure `VideoThread`; mutating methods become functions
  `VideoThread → ... → VideoThread × outputs`.
* The `params` dict (lines 43-54) holds Python numerics (`bool ⊆ int ⊆ float`);
  all values are modelled uniformly as `ℚ` (`True` is `1`, `0.5` is `1/2`).
* Host interaction (`cv2.VideoCapture`, `os.path.exists`, `YOLO(...)`,
  `model.track`) is passed in as explicit oracle arguments; a capture handle
  is a `Cap` record with an `opened` flag (`.release()` clears it, mirroring
  `isOpened()` turning false) and a playback position (`CAP_PROP_POS_FRAMES`).
* Qt signal emissions (`error_signal`, `finished_signal`, `model_loaded`,
  `params_updated`) become explicit outputs; drawing on the frame
  (`cv2.rectangle`/`putText`, lines 230-232) has no effect on counting state
  and is not modelled.
* Python `int` is `Int`; box coordinates enter `process_frame` already
  truncated by `int(v)` (line 227), so detections carry integer boxes.
-/

namespace JC

/-- One detection as unpacked in `process_frame` line 226-227: a box
`[x, y, w, h]` (after the `int(v)` conversion) and a track id, `-1` being the
untracked sentinel (line 271). -/
structure Detection where
  x : Int
  y : Int
  w : Int
  h : Int
  tid : Int
  deriving DecidableEq, Repr

/-- The `self.params` dict initialised at lines 43-54. Every key is a field;
values are Python numerics modelled as `ℚ` (booleans as 0/1). -/
structure Params where
  track_dist : ℚ
  detect_bottom : ℚ
  min_area : ℚ
  max_area : ℚ
  model_conf : ℚ
  model_nms : ℚ
  model_size : ℚ
  track_enabled : ℚ
  track_buffer : ℚ
  track_min_hits : ℚ
  deriving DecidableEq, Repr

/-- The initial `self.params` value of `__init__` (lines 43-54). -/
def default_params : Params :=
  { track_dist := 50
  , detect_bottom := 20
  , min_area := 50
  , max_area := 5000
  , model_conf := 1/2
  , model_nms := 2/5
  , model_size := 640
  , track_enabled := 1
  , track_buffer := 30
  , track_min_hits := 3 }

/-- The key set of the `self.params` dict, used by the membership test
`param_name in self.params` at line 305. -/
def params_keys : List String :=
  [ "track_dist", "detect_bottom", "min_area", "max_area", "model_conf"
  , "model_nms", "model_size", "track_enabled", "track_buffer"
  , "track_min_hits" ]

/-- Dict read `self.params[name]`, `none` for a missing key. -/
def Params.get? (p : Params) (name : String) : Option ℚ :=
  if name = "track_dist" then some p.track_dist
  else if name = "detect_bottom" then some p.detect_bottom
  else if name = "min_area" then some p.min_area
  else if name = "max_area" then some p.max_area
  else if name = "model_conf" then some p.model_conf
  else if name = "model_nms" then some p.model_nms
  else if name = "model_size" then some p.model_size
  else if name = "track_enabled" then some p.track_enabled
  else if name = "track_buffer" then some p.track_buffer
  else if name = "track_min_hits" then some p.track_min_hits
  else none

/-- Dict assignment `self.params[name] = value` for a recognised key. -/
def Params.set (p : Params) (name : String) (v : ℚ) : Params :=
  if name = "track_dist" then { p with track_dist := v }
  else if name = "detect_bottom" then { p with detect_bottom := v }
  else if name = "min_area" then { p with min_area := v }
  else if name = "max_area" then { p with max_area := v }
  else if name = "model_conf" then { p with model_conf := v }
  else if name = "model_nms" then { p with model_nms := v }
  else if name = "model_size" then { p with model_size := v }
  else if name = "track_enabled" then { p with track_enabled := v }
  else if name = "track_buffer" then { p with track_buffer := v }
  else if name = "track_min_hits" then { p with track_min_hits := v }
  else p

/-- The loaded YOLO model, reduced to what the worker reads from it:
`self.model.args.get("imgsz", 640)` at line 141. -/
structure Model where
  imgsz : Option Int
  deriving DecidableEq, Repr

/-- A video source: `self.source` is either a camera index (Python `int`) or a
file path (Python `str`). `__init__` sets it to the integer `0`. -/
inductive Source where
  | cam : Nat → Source
  | file : String → Source
  deriving DecidableEq, Repr

/-- `Source.isFile` discriminates file-path sources from camera indices. -/
def Source.isFile : Source → Bool
  | .cam _ => false
  | .file _ => true

/-- A `cv2.VideoCapture` handle: whether `isOpened()` holds (cleared by
`release()`) and the `CAP_PROP_POS_FRAMES` playback position. -/
structure Cap where
  opened : Bool
  pos : Int
  deriving DecidableEq, Repr

/-- Failure cases of `set_source` (lines 152-183): the `raise` sites at lines
163, 168, 170 and 174. The first three are the `InvalidSource` of the spec, the
last its `DeviceOpenFailed`. -/
inductive SourceErr where
  | cameraUnavailable
  | fileNotFound
  | badExtension
  | openFailed
  deriving DecidableEq, Repr

/-- The mutable state of class `VideoThread` (lines 41-73), restricted to the
fields the processing logic reads or writes. `tracked_objects` is a dict
only ever cleared (lines 63, 122), modelled by its key set. -/
structure VideoThread where
  params : Params
  model : Option Model
  model_path : String
  source : Source
  running : Bool
  pause : Bool
  cap : Option Cap
  tracked_objects : Finset Int
  next_id : Int
  frame_height : Int
  total_count : Int
  counted_ids : Finset Int
  available_cameras : Finset Nat
  deriving DecidableEq

/-- `__init__` (lines 41-73): the state after construction, given the probed
camera set returned by `_get_available_cameras`. -/
def initial (cams : Finset Nat) : VideoThread :=
  { params := default_params
  , model := none
  , model_path := ""
  , source := Source.cam 0
  , running := false
  , pause := false
  , cap := none
  , tracked_objects := ∅
  , next_id := 1
  , frame_height := 0
  , total_count := 0
  , counted_ids := ∅
  , available_cameras := cams }

/-- `reset_counters` (lines 118-123). -/
def reset_counters (s : VideoThread) : VideoThread :=
  { s with total_count := 0
         , counted_ids := ∅
         , tracked_objects := ∅
         , next_id := 1 }

/-- The body of the detection loop of `process_frame` (lines 226-239) for one
detection: bottom-edge test `(y + h) > (frame_height - detect_bottom)`
(line 235), then `track_id != -1 and track_id not in counted_ids`
(line 236); on success the running frame count is incremented and the id is
added to the counted set (lines 237-238). The accumulator pairs
`current_count` with the evolving `counted_ids`. -/
def frameStep (fh : Int) (db : ℚ) (acc : Int × Finset Int) (d : Detection) :
    Int × Finset Int :=
  if ((d.y + d.h : Int) : ℚ) > (fh : ℚ) - db then
    if d.tid ≠ -1 ∧ d.tid ∉ acc.2 then (acc.1 + 1, insert d.tid acc.2)
    else acc
  else acc

/-- The counting core of `process_frame` (lines 223-241) applied to the
detection list returned by `detect_objects`: folds `frameStep` starting from
`current_count = 0` and the counted set of the session, stores the final counted
set back into the state and returns the per-frame count. -/
def count_detections (s : VideoThread) (dets : List Detection) :
    VideoThread × Int :=
  let f := dets.foldl (frameStep s.frame_height s.params.detect_bottom)
    (0, s.counted_ids)
  ({ s with counted_ids := f.2 }, f.1)

/-- `detect_objects` (lines 243-284). With no model it returns `[]`
immediately (lines 244-245). Otherwise the call into
`model.track` and the conversion of its output is the external Detector,
passed as the oracle `infer`; an exception from it is caught at lines
280-284, reported on `error_signal` (the `Option String` output) and turned
into `[]`. -/
def detect_objects (s : VideoThread)
    (infer : Except String (List Detection)) :
    List Detection × Option String :=
  match s.model with
  | none => ([], none)
  | some _ =>
    match infer with
    | .ok dets => (dets, none)
    | .error e => ([], some e)

/-- `process_frame` (lines 221-241): run `detect_objects`, then the counting
core. Returns the new state, `current_count`, and any error message emitted
by the detection step. -/
def process_frame (s : VideoThread)
    (infer : Except String (List Detection)) :
    VideoThread × Int × Option String :=
  let r := detect_objects s infer
  let f := count_detections s r.1
  (f.1, f.2, r.2)

/-- One successful iteration of the `run` loop restricted to the counting
engine (lines 204-206): process the detections of the frame and accumulate
`self.total_count += current_count`. -/
def run_count_step (s : VideoThread) (dets : List Detection) :
    VideoThread × Int :=
  let r := count_detections s dets
  ({ r.1 with total_count := r.1.total_count + r.2 }, r.2)

/-- The `run` loop (counting part) over a sequence of per-frame detection
lists: the state after processing all of them. -/
def run_counts (s : VideoThread) (fds : List (List Detection)) : VideoThread :=
  fds.foldl (fun st dets => (run_count_step st dets).1) s

/-- The per-frame counts (`current_count` values) produced along a run of
`run_count_step` over a sequence of per-frame detection lists. -/
def frame_counts (s : VideoThread) (fds : List (List Detection)) : List Int :=
  match fds with
  | [] => []
  | dets :: rest =>
    let r := run_count_step s dets
    r.2 :: frame_counts r.1 rest

/-- The number of frames of a run in which a given track id is newly added to
the counted set (it was absent before the frame and present after). -/
def times_added (s : VideoThread) (fds : List (List Detection)) (t : Int) :
    Nat :=
  match fds with
  | [] => 0
  | dets :: rest =>
    let s' := (run_count_step s dets).1
    (if t ∉ s.counted_ids ∧ t ∈ s'.counted_ids then 1 else 0) +
      times_added s' rest t

/-- The release of an already-open capture at lines 155-157 of `set_source`
(and 291-293 of `stop`): `if self.cap and self.cap.isOpened():
self.cap.release()`. -/
def release_cap (s : VideoThread) : VideoThread :=
  match s.cap with
  | some c => if c.opened then { s with cap := some { c with opened := false } }
              else s
  | none => s

/-- The Python expression `s.lower().endswith(suffix)` for an already-lowercase suffix,
evaluated on the character lists of the strings. -/
def lower_ends_with (s suffix : String) : Bool :=
  suffix.data.isSuffixOf (s.data.map Char.toLower)

/-- The extension allow-list of `set_source` line 169:
`source.lower().endswith((".mp4", ".avi", ".mkv"))`. -/
def valid_video_ext (path : String) : Bool :=
  lower_ends_with path ".mp4" || lower_ends_with path ".avi" ||
    lower_ends_with path ".mkv"

/-- The tail of `set_source` (lines 172-179): store the freshly constructed
capture (`self.cap = cv2.VideoCapture(self.source)`), fail if it is not
opened (line 173-174), otherwise read the frame height and reset the
counters. `newCap`/`capHeight` are the oracle results of the `cv2` calls. -/
def set_source_open (s : VideoThread) (newCap : Cap) (capHeight : Int) :
    VideoThread × Option SourceErr :=
  let s1 := { s with cap := some newCap }
  if ¬ newCap.opened then (s1, some SourceErr.openFailed)
  else
    let s2 := { s1 with frame_height := capHeight }
    (reset_counters s2, none)

/-- `set_source` (lines 152-183). Order follows the source: release any open
capture (155-157), store the requested source (159), validate it
(161-170), then open (172-179). A raised error is caught at 180-183 and
reported; the state keeps every mutation made before the raise. `fileExists`
is the `os.path.exists` oracle. -/
def set_source (s : VideoThread) (src : Source) (fileExists : String → Bool)
    (newCap : Cap) (capHeight : Int) : VideoThread × Option SourceErr :=
  let s1 := release_cap s
  let s2 := { s1 with source := src }
  match src with
  | Source.cam i =>
    if i ∉ s2.available_cameras then (s2, some SourceErr.cameraUnavailable)
    else set_source_open s2 newCap capHeight
  | Source.file p =>
    if ¬ fileExists p then (s2, some SourceErr.fileNotFound)
    else if ¬ valid_video_ext p then (s2, some SourceErr.badExtension)
    else set_source_open s2 newCap capHeight

/-- Outcome of the end-of-stream branch of the `run` loop. -/
structure EosOutcome where
  state : VideoThread
  rewound : Bool
  finished_emitted : Bool
  loop_continues : Bool
  deriving DecidableEq

/-- The `if not ret:` branch of the `run` loop (lines 198-202): when the frame
read fails, rewind to frame 0 when `self.source != 0` (the Python comparison
holds for every file path and for every camera index other than `0`), emit
`finished_signal`, and `continue` the loop. The guard at line 193 guarantees
`self.cap` is open whenever this branch runs. -/
def handle_end_of_stream (s : VideoThread) : EosOutcome :=
  if s.source ≠ Source.cam 0 then
    { state := { s with cap := s.cap.map (fun c => { c with pos := 0 }) }
    , rewound := true
    , finished_emitted := true
    , loop_continues := true }
  else
    { state := s
    , rewound := false
    , finished_emitted := true
    , loop_continues := true }

/-- `stop` (lines 286-300): clear the run/pause flags, release an open
capture, drop the model reference. The `quit()` call only ends the Qt
thread and touches no modelled state. -/
def stop (s : VideoThread) : VideoThread :=
  let s1 := { s with running := false, pause := false }
  let s2 := release_cap s1
  match s2.model with
  | some _ => { s2 with model := none }
  | none => s2

/-- `update_params` (lines 302-307): assign the value when the name is a key
of the dict and emit `params_updated` (the `Bool` output); otherwise do
nothing. -/
def update_params (s : Params) (name : String) (v : ℚ) : Params × Bool :=
  if name ∈ params_keys then (s.set name v, true) else (s, false)

/-- The extension allow-list of `load_model` line 136:
`model_path.lower().endswith((".pt", ".pth"))`. -/
def valid_model_ext (path : String) : Bool :=
  lower_ends_with path ".pt" || lower_ends_with path ".pth"

/-- `load_model` (lines 125-150). Order follows the source: clear any loaded
model first (128-132), check existence (134-135) and extension (136-137),
then construct via the `YOLO(...)` oracle `loadResult` (an exception there is
caught at 146-150). On success store the model, overwrite
`params["model_size"]` with `model.args.get("imgsz", 640)` (line 141) and
record the path. The `Bool` output is the `model_loaded` emission. -/
def load_model (s : VideoThread) (path : String) (fExists : Bool)
    (loadResult : Except String Model) : VideoThread × Bool :=
  let s1 := match s.model with
    | some _ => { s with model := none }
    | none => s
  if ¬ fExists then (s1, false)
  else if ¬ valid_model_ext path then (s1, false)
  else
    match loadResult with
    | .error _ => (s1, false)
    | .ok m =>
      ({ s1 with model := some m
               , params := { s1.params with
                   model_size := ((m.imgsz.getD 640 : Int) : ℚ) }
               , model_path := path }, true)

/-! ### Helper lemmas about the counting core -/

theorem frameStep_counted_subset (fh : Int) (db : ℚ) (acc : Int × Finset Int)
    (d : Detection) : acc.2 ⊆ (frameStep fh db acc d).2 := by
  unfold frameStep
  split
  · split
    · exact Finset.subset_insert _ _
    · exact Finset.Subset.refl _
  · exact Finset.Subset.refl _

theorem foldl_frameStep_counted_subset (fh : Int) (db : ℚ)
    (l : List Detection) :
    ∀ acc : Int × Finset Int, acc.2 ⊆ (l.foldl (frameStep fh db) acc).2 := by
  induction l with
  | nil => intro acc; exact Finset.Subset.refl _
  | cons d rest ih =>
    intro acc
    rw [List.foldl_cons]
    exact (frameStep_counted_subset fh db acc d).trans (ih _)

theorem frameStep_count_le (fh : Int) (db : ℚ) (acc : Int × Finset Int)
    (d : Detection) : acc.1 ≤ (frameStep fh db acc d).1 := by
  unfold frameStep
  split
  · split
    · exact le_of_lt (lt_add_one acc.1)
    · exact le_refl _
  · exact le_refl _

theorem foldl_frameStep_count_le (fh : Int) (db : ℚ) (l : List Detection) :
    ∀ acc : Int × Finset Int, acc.1 ≤ (l.foldl (frameStep fh db) acc).1 := by
  induction l with
  | nil => intro acc; exact le_refl _
  | cons d rest ih =>
    intro acc
    rw [List.foldl_cons]
    exact (frameStep_count_le fh db acc d).trans (ih _)

theorem frameStep_mem_noop (fh : Int) (db : ℚ) (cnt : Int) (ids : Finset Int)
    (d : Detection) (h : d.tid ∈ ids) :
    frameStep fh db (cnt, ids) d = (cnt, ids) := by
  unfold frameStep
  split
  · rw [if_neg]
    intro hc
    exact hc.2 h
  · rfl

theorem count_detections_frame_height (s : VideoThread)
    (dets : List Detection) :
    (count_detections s dets).1.frame_height = s.frame_height := rfl

theorem count_detections_params (s : VideoThread) (dets : List Detection) :
    (count_detections s dets).1.params = s.params := rfl

theorem count_detections_total (s : VideoThread) (dets : List Detection) :
    (count_detections s dets).1.total_count = s.total_count := rfl

theorem count_detections_nonneg (s : VideoThread) (dets : List Detection) :
    0 ≤ (count_detections s dets).2 :=
  foldl_frameStep_count_le s.frame_height s.params.detect_bottom dets
    (0, s.counted_ids)

theorem count_detections_counted_subset (s : VideoThread)
    (dets : List Detection) :
    s.counted_ids ⊆ (count_detections s dets).1.counted_ids :=
  foldl_frameStep_counted_subset s.frame_height s.params.detect_bottom dets
    (0, s.counted_ids)

theorem run_count_step_frame_height (s : VideoThread) (dets : List Detection) :
    (run_count_step s dets).1.frame_height = s.frame_height := rfl

theorem run_count_step_params (s : VideoThread) (dets : List Detection) :
    (run_count_step s dets).1.params = s.params := rfl

theorem run_count_step_total (s : VideoThread) (dets : List Detection) :
    (run_count_step s dets).1.total_count =
      s.total_count + (run_count_step s dets).2 := rfl

theorem run_count_step_counted_subset (s : VideoThread)
    (dets : List Detection) :
    s.counted_ids ⊆ (run_count_step s dets).1.counted_ids :=
  count_detections_counted_subset s dets

theorem run_counts_nil (s : VideoThread) : run_counts s [] = s := rfl

theorem run_counts_cons (s : VideoThread) (dets : List Detection)
    (rest : List (List Detection)) :
    run_counts s (dets :: rest) = run_counts (run_count_step s dets).1 rest :=
  rfl

theorem run_counts_append (s : VideoThread) (l1 l2 : List (List Detection)) :
    run_counts s (l1 ++ l2) = run_counts (run_counts s l1) l2 := by
  unfold run_counts
  exact List.foldl_append _ _ _ _

theorem frame_counts_nil (s : VideoThread) : frame_counts s [] = [] := rfl

theorem frame_counts_cons (s : VideoThread) (dets : List Detection)
    (rest : List (List Detection)) :
    frame_counts s (dets :: rest) =
      (run_count_step s dets).2 :: frame_counts (run_count_step s dets).1 rest :=
  rfl

theorem run_counts_counted_subset (fds : List (List Detection)) :
    ∀ s : VideoThread, s.counted_ids ⊆ (run_counts s fds).counted_ids := by
  induction fds with
  | nil => intro s; exact Finset.Subset.refl _
  | cons dets rest ih =>
    intro s
    rw [run_counts_cons]
    exact (run_count_step_counted_subset s dets).trans (ih _)

theorem run_counts_frame_height (fds : List (List Detection)) :
    ∀ s : VideoThread, (run_counts s fds).frame_height = s.frame_height := by
  induction fds with
  | nil => intro s; rfl
  | cons dets rest ih =>
    intro s
    rw [run_counts_cons, ih, run_count_step_frame_height]

theorem run_counts_params (fds : List (List Detection)) :
    ∀ s : VideoThread, (run_counts s fds).params = s.params := by
  induction fds with
  | nil => intro s; rfl
  | cons dets rest ih =>
    intro s
    rw [run_counts_cons, ih, run_count_step_params]

theorem run_counts_total_eq (fds : List (List Detection)) :
    ∀ s : VideoThread,
      (run_counts s fds).total_count =
        s.total_count + (frame_counts s fds).sum := by
  induction fds with
  | nil => intro s; simp [run_counts_nil, frame_counts_nil]
  | cons dets rest ih =>
    intro s
    rw [run_counts_cons, ih, frame_counts_cons, List.sum_cons,
      run_count_step_total]
    ring

theorem frame_counts_nonneg (fds : List (List Detection)) :
    ∀ (s : VideoThread) (c : Int), c ∈ frame_counts s fds → 0 ≤ c := by
  induction fds with
  | nil => intro s c hc; simp [frame_counts_nil] at hc
  | cons dets rest ih =>
    intro s c hc
    rw [frame_counts_cons, List.mem_cons] at hc
    rcases hc with hc | hc
    · exact hc ▸ count_detections_nonneg s dets
    · exact ih _ _ hc

theorem times_added_cons (s : VideoThread) (dets : List Detection)
    (rest : List (List Detection)) (t : Int) :
    times_added s (dets :: rest) t =
      (if t ∉ s.counted_ids ∧ t ∈ (run_count_step s dets).1.counted_ids
       then 1 else 0) + times_added (run_count_step s dets).1 rest t := rfl

theorem times_added_of_mem (fds : List (List Detection)) :
    ∀ (s : VideoThread) (t : Int), t ∈ s.counted_ids →
      times_added s fds t = 0 := by
  induction fds with
  | nil => intro s t _; rfl
  | cons dets rest ih =>
    intro s t ht
    rw [times_added_cons, if_neg, ih _ t
      (run_count_step_counted_subset s dets ht)]
    intro hc
    exact hc.1 ht

theorem times_added_le_one (fds : List (List Detection)) :
    ∀ (s : VideoThread) (t : Int), times_added s fds t ≤ 1 := by
  induction fds with
  | nil => intro s t; exact Nat.zero_le 1
  | cons dets rest ih =>
    intro s t
    rw [times_added_cons]
    by_cases h : t ∉ s.counted_ids ∧ t ∈ (run_count_step s dets).1.counted_ids
    · rw [if_pos h, times_added_of_mem rest _ t h.2]
    · rw [if_neg h]
      simpa using ih _ t

theorem frameStep_rule (fh : Int) (db : ℚ) (cnt : Int) (ids : Finset Int)
    (d : Detection) :
    frameStep fh db (cnt, ids) d =
      if d.tid ≠ -1 ∧ ((d.y + d.h : Int) : ℚ) > (fh : ℚ) - db ∧ d.tid ∉ ids
      then (cnt + 1, insert d.tid ids) else (cnt, ids) := by
  by_cases h1 : d.tid = -1 <;>
    by_cases h2 : ((d.y + d.h : Int) : ℚ) > (fh : ℚ) - db <;>
      by_cases h3 : d.tid ∈ ids <;>
        simp [frameStep, h1, h2, h3]

theorem frame_counts_congr (fds : List (List Detection)) :
    ∀ s1 s2 : VideoThread,
      s1.frame_height = s2.frame_height →
      s1.params.detect_bottom = s2.params.detect_bottom →
      s1.counted_ids = s2.counted_ids →
      frame_counts s1 fds = frame_counts s2 fds := by
  induction fds with
  | nil => intro s1 s2 _ _ _; rfl
  | cons dets rest ih =>
    intro s1 s2 h1 h2 h3
    have e :
        dets.foldl (frameStep s1.frame_height s1.params.detect_bottom)
          (0, s1.counted_ids) =
        dets.foldl (frameStep s2.frame_height s2.params.detect_bottom)
          (0, s2.counted_ids) := by
      rw [h1, h2, h3]
    rw [frame_counts_cons, frame_counts_cons]
    have ec : (run_count_step s1 dets).2 = (run_count_step s2 dets).2 :=
      congrArg Prod.fst e
    have em : (run_count_step s1 dets).1.counted_ids =
        (run_count_step s2 dets).1.counted_ids :=
      congrArg Prod.snd e
    rw [ec, ih (run_count_step s1 dets).1 (run_count_step s2 dets).1
      (by rw [run_count_step_frame_height, run_count_step_frame_height, h1])
      (by rw [run_count_step_params, run_count_step_params, h2]) em]

theorem reset_frame_height (s : VideoThread) :
    (reset_counters s).frame_height = s.frame_height := rfl

theorem reset_params (s : VideoThread) :
    (reset_counters s).params = s.params := rfl

/-- A worker state for concrete evaluations: freshly constructed, no cameras,
frame height 600, so with the default `detect_bottom = 20` the count line sits
at 580. -/
def demo_state : VideoThread := { initial ∅ with frame_height := 600 }

/-- A tracked detection whose bottom edge 590 lies strictly below the count
line 580 of `demo_state`. -/
def demo_det : Detection := { x := 0, y := 560, w := 10, h := 30, tid := 7 }

/-- A tracked detection whose bottom edge 560 + 20 = 580 lies exactly on the
count line of `demo_state`. -/
def c1_det : Detection := { x := 10, y := 560, w := 20, h := 20, tid := 7 }

/-! ### Claim theorems -/

/-- C1, counterexample. In `demo_state` (frame height 600, default
`detect_bottom = 20`, count line 580) the detection `c1_det` has track id
7 ≠ -1, is not yet counted, and its bottom edge equals exactly
`frame_height - detect_bottom`; the inclusive boundary of the claim demands that
it be counted, but the strict `>` of `process_frame` at line 235 counts nothing
and does not record the id. -/
theorem c1_boundary_counterexample :
    ((c1_det.y + c1_det.h : Int) : ℚ) =
        (demo_state.frame_height : ℚ) - demo_state.params.detect_bottom ∧
    c1_det.tid ≠ -1 ∧ c1_det.tid ∉ demo_state.counted_ids ∧
    (count_detections demo_state [c1_det]).2 = 0 ∧
    c1_det.tid ∉ (count_detections demo_state [c1_det]).1.counted_ids := by
  have hb : ¬ ((c1_det.y + c1_det.h : Int) : ℚ) >
      (demo_state.frame_height : ℚ) - demo_state.params.detect_bottom := by
    norm_num [c1_det, demo_state, initial, default_params]
  have hstep :
      frameStep demo_state.frame_height demo_state.params.detect_bottom
        (0, demo_state.counted_ids) c1_det = (0, demo_state.counted_ids) := by
    rw [frameStep_rule, if_neg]
    intro h
    exact hb h.2.1
  have hcd : count_detections demo_state [c1_det] = (demo_state, 0) := by
    show ({ demo_state with
        counted_ids :=
          (frameStep demo_state.frame_height demo_state.params.detect_bottom
            (0, demo_state.counted_ids) c1_det).2 },
      (frameStep demo_state.frame_height demo_state.params.detect_bottom
        (0, demo_state.counted_ids) c1_det).1) = (demo_state, 0)
    rw [hstep]
  refine ⟨?_, by decide, by decide, ?_, ?_⟩
  · norm_num [c1_det, demo_state, initial, default_params]
  · rw [hcd]
  · rw [hcd]
    decide

/-- C1, amended. A detection increments the per-frame count and has its id
added to the counted set iff: its track id is not the untracked sentinel -1,
AND its bottom edge `y + h` is strictly below the count line, i.e.
`y + h > frame_height - detect_bottom` (the boundary is exclusive: a bottom
edge exactly equal to `frame_height - detect_bottom` is not counted), AND its
id is not already in the counted set; in particular a detection with the
untracked sentinel is never counted. Stated for the per-detection step
`frameStep` of the detection loop and for `count_detections` on a
single-detection frame. -/
theorem c1_counting_rule_strict (fh : Int) (db : ℚ) (cnt : Int)
    (ids : Finset Int) (d : Detection) (s : VideoThread) :
    (frameStep fh db (cnt, ids) d =
      if d.tid ≠ -1 ∧ ((d.y + d.h : Int) : ℚ) > (fh : ℚ) - db ∧ d.tid ∉ ids
      then (cnt + 1, insert d.tid ids) else (cnt, ids)) ∧
    (count_detections s [d] =
      if d.tid ≠ -1 ∧
          ((d.y + d.h : Int) : ℚ) >
            (s.frame_height : ℚ) - s.params.detect_bottom ∧
          d.tid ∉ s.counted_ids
      then ({ s with counted_ids := insert d.tid s.counted_ids }, 1)
      else (s, 0)) := by
  constructor
  · exact frameStep_rule fh db cnt ids d
  · simp only [count_detections, List.foldl_cons, List.foldl_nil,
      frameStep_rule]
    split_ifs with h
    · rfl
    · rfl

/-- C3. Within one session (no reset), a track identifier t ≠ -1 is newly
added to the counted set in at most one frame of any run; once it is in the
counted set it stays there for the rest of the run; and the per-detection
step never increments the count nor changes the set for a detection whose id
is already counted. -/
theorem c3_counted_at_most_once (t : Int) (ht : t ≠ -1) (s : VideoThread)
    (fds : List (List Detection)) :
    (t ∈ s.counted_ids → t ∈ (run_counts s fds).counted_ids) ∧
    times_added s fds t ≤ 1 ∧
    (∀ (fh : Int) (db : ℚ) (cnt : Int) (ids : Finset Int) (d : Detection),
      d.tid = t → t ∈ ids → frameStep fh db (cnt, ids) d = (cnt, ids)) := by
  refine ⟨fun hmem => run_counts_counted_subset fds s hmem,
    times_added_le_one fds s t, ?_⟩
  intro fh db cnt ids d hdt hmem
  subst hdt
  exact frameStep_mem_noop fh db cnt ids d hmem

/-- C3, witness: id 7 below the count line in two consecutive frames of one
session is added to the counted set at most once. -/
theorem c3_counted_at_most_once_witness :
    times_added demo_state [[demo_det], [demo_det]] 7 ≤ 1 :=
  (c3_counted_at_most_once 7 (by decide) demo_state
    [[demo_det], [demo_det]]).2.1

/-- C4. Starting from a reset, the cumulative count after processing a
sequence of frames equals the sum of the per-frame counts of the counting
step over those frames; every per-frame count is non-negative; and the
cumulative count is monotonically non-decreasing as further frames of the
same session are processed. -/
theorem c4_total_is_sum_of_frame_counts (s : VideoThread)
    (fds more : List (List Detection)) :
    (run_counts (reset_counters s) fds).total_count =
      (frame_counts (reset_counters s) fds).sum ∧
    (∀ c ∈ frame_counts (reset_counters s) fds, 0 ≤ c) ∧
    (run_counts (reset_counters s) fds).total_count ≤
      (run_counts (reset_counters s) (fds ++ more)).total_count := by
  refine ⟨?_, fun c hc => frame_counts_nonneg fds _ c hc, ?_⟩
  · rw [run_counts_total_eq]
    show (0 : Int) + _ = _
    rw [zero_add]
  · rw [run_counts_append, run_counts_total_eq more]
    have h0 : 0 ≤ (frame_counts (run_counts (reset_counters s) fds) more).sum :=
      List.sum_nonneg (fun c hc => frame_counts_nonneg more _ c hc)
    linarith

/-- C4, witness: a concrete two-frame session where the cumulative count is
the sum of the per-frame counts. -/
theorem c4_total_is_sum_of_frame_counts_witness :
    (run_counts (reset_counters demo_state) [[demo_det], [c1_det]]).total_count
      = (frame_counts (reset_counters demo_state)
          [[demo_det], [c1_det]]).sum :=
  (c4_total_is_sum_of_frame_counts demo_state [[demo_det], [c1_det]] []).1

/-- C6. Running a detection sequence from a reset, then resetting the
resulting state and replaying the same sequence, reproduces exactly the same
per-frame counts and the same cumulative count: counting output is a
deterministic function of the detection sequence and the state established
at reset (the frame height and configuration, which reset preserves). -/
theorem c6_reset_replay_deterministic (s : VideoThread)
    (fds : List (List Detection)) :
    frame_counts (reset_counters (run_counts (reset_counters s) fds)) fds =
      frame_counts (reset_counters s) fds ∧
    (run_counts (reset_counters (run_counts (reset_counters s) fds))
        fds).total_count =
      (run_counts (reset_counters s) fds).total_count := by
  have hfc := frame_counts_congr fds
    (reset_counters (run_counts (reset_counters s) fds)) (reset_counters s)
    (run_counts_frame_height fds (reset_counters s))
    (congrArg Params.detect_bottom (run_counts_params fds (reset_counters s)))
    rfl
  refine ⟨hfc, ?_⟩
  rw [run_counts_total_eq, run_counts_total_eq, hfc]
  rfl

theorem release_cap_fields (s : VideoThread) :
    (release_cap s).total_count = s.total_count ∧
    (release_cap s).counted_ids = s.counted_ids ∧
    (release_cap s).frame_height = s.frame_height ∧
    (release_cap s).params = s.params ∧
    (release_cap s).model = s.model ∧
    (release_cap s).available_cameras = s.available_cameras := by
  rcases hc : s.cap with _ | c
  · simp [release_cap, hc]
  · by_cases hco : c.opened <;> simp [release_cap, hc, hco]

/-- A worker state with a file source already open: camera 0 probed as
available, an open capture at playback position 3, a non-trivial counting
session. -/
def c2_state : VideoThread :=
  { initial {0} with
      cap := some { opened := true, pos := 3 }
    , source := Source.file "v.mp4"
    , frame_height := 480
    , total_count := 5
    , counted_ids := {2, 3} }

/-- C2, counterexample. In `c2_state` camera index 1 is not in the probed
set; `set_source` with it fails with the invalid-source error, but the state
is not unchanged: the previously open capture handle has been released and
the stored source has been overwritten before the validation ran. -/
theorem c2_set_source_counterexample :
    (set_source c2_state (Source.cam 1) (fun _ => true)
        { opened := true, pos := 0 } 480).2 =
      some SourceErr.cameraUnavailable ∧
    (set_source c2_state (Source.cam 1) (fun _ => true)
        { opened := true, pos := 0 } 480).1.cap ≠ c2_state.cap ∧
    (set_source c2_state (Source.cam 1) (fun _ => true)
        { opened := true, pos := 0 } 480).1.source ≠ c2_state.source := by
  decide

/-- C2, amended. `set_source` with a camera index outside the probed
available set fails with the invalid-source error and leaves the counting
session (cumulative count, counted set, frame height), the configuration and
the model untouched; but the call is not state-preserving: before the
validation it has already released a previously open capture handle and
overwritten the stored source, so the result state is exactly the prior
state with the capture released and the source field replaced. -/
theorem c2_set_source_invalid_camera (s : VideoThread) (i : Nat)
    (fe : String → Bool) (nc : Cap) (ch : Int)
    (h : i ∉ s.available_cameras) :
    set_source s (Source.cam i) fe nc ch =
      ({ release_cap s with source := Source.cam i },
        some SourceErr.cameraUnavailable) ∧
    (set_source s (Source.cam i) fe nc ch).1.total_count = s.total_count ∧
    (set_source s (Source.cam i) fe nc ch).1.counted_ids = s.counted_ids ∧
    (set_source s (Source.cam i) fe nc ch).1.frame_height = s.frame_height ∧
    (set_source s (Source.cam i) fe nc ch).1.params = s.params ∧
    (set_source s (Source.cam i) fe nc ch).1.model = s.model := by
  have e : set_source s (Source.cam i) fe nc ch =
      ({ release_cap s with source := Source.cam i },
        some SourceErr.cameraUnavailable) := by
    simp only [set_source]
    rw [(release_cap_fields s).2.2.2.2.2, if_pos h]
  refine ⟨e, ?_, ?_, ?_, ?_, ?_⟩ <;> rw [e]
  · exact (release_cap_fields s).1
  · exact (release_cap_fields s).2.1
  · exact (release_cap_fields s).2.2.1
  · exact (release_cap_fields s).2.2.2.1
  · exact (release_cap_fields s).2.2.2.2.1

/-- C2, witness: the amended statement evaluated at `c2_state` and the
unavailable camera index 1. -/
theorem c2_set_source_invalid_camera_witness :
    set_source c2_state (Source.cam 1) (fun _ => true)
        { opened := true, pos := 0 } 480 =
      ({ release_cap c2_state with source := Source.cam 1 },
        some SourceErr.cameraUnavailable) :=
  (c2_set_source_invalid_camera c2_state 1 (fun _ => true)
    { opened := true, pos := 0 } 480 (by decide)).1

/-- A running worker whose active source is camera index 1 with an open
capture mid-stream. -/
def c5_state : VideoThread :=
  { initial {0, 1} with
      source := Source.cam 1
    , cap := some { opened := true, pos := 5 }
    , running := true }

/-- C5, counterexample. With camera index 1 as the active source (a camera,
not a file), the end-of-stream branch does rewind to frame 0, because the
rewind condition in the code is `self.source != 0`, not a file-source test; this
contradicts the claim that camera sources never trigger the rewind. -/
theorem c5_eos_counterexample :
    (handle_end_of_stream c5_state).rewound = true ∧
    Source.isFile c5_state.source = false := by
  decide

/-- C5, amended. On end-of-stream the worker seeks back to the first frame
iff the stored source differs from the integer 0 (the default camera index):
every file source rewinds, camera index 0 never rewinds, but a camera with a
non-zero index would also rewind. In every case it publishes the
iteration-complete notification and continues the loop rather than
terminating. -/
theorem c5_eos_rewind_rule (s : VideoThread) :
    ((handle_end_of_stream s).rewound = true ↔ s.source ≠ Source.cam 0) ∧
    (handle_end_of_stream s).finished_emitted = true ∧
    (handle_end_of_stream s).loop_continues = true := by
  by_cases h : s.source = Source.cam 0 <;> simp [handle_end_of_stream, h]

/-- C5, witness: the rule evaluated at `c5_state`, whose source is camera 1. -/
theorem c5_eos_rewind_rule_witness :
    (handle_end_of_stream c5_state).rewound = true :=
  (c5_eos_rewind_rule c5_state).1.mpr (by decide)

/-- C7. `update_params` with a name that is not a key of the parameter dict
leaves the configuration entirely unchanged and reports no failure (it merely
skips the emission of the updated-parameters notification); with a recognized
name the value is applied and readable back under that name. -/
theorem c7_update_params_rule (p : Params) (name : String) (v : ℚ) :
    (name ∉ params_keys → update_params p name v = (p, false)) ∧
    (name ∈ params_keys →
      (update_params p name v).1.get? name = some v ∧
      (update_params p name v).2 = true) := by
  constructor
  · intro h
    unfold update_params
    rw [if_neg h]
  · intro h
    unfold update_params
    rw [if_pos h]
    refine ⟨?_, rfl⟩
    simp only [params_keys, List.mem_cons, List.not_mem_nil, or_false] at h
    rcases h with h | h | h | h | h | h | h | h | h | h <;> subst h <;> rfl

/-- C7, witness: an unrecognized key is ignored; a recognized key is
applied. -/
theorem c7_update_params_witness :
    update_params default_params "bogus" 1 = (default_params, false) ∧
    (update_params default_params "model_conf" (4/5)).1.get? "model_conf" =
      some (4/5) :=
  ⟨(c7_update_params_rule default_params "bogus" 1).1 (by decide),
   ((c7_update_params_rule default_params "model_conf" (4/5)).2
     (by decide)).1⟩

/-- C8. `stop` is idempotent: after one call the model reference is cleared
and no open capture handle remains, and a second call changes nothing
further (and, like the first, cannot fail). -/
theorem c8_stop_idempotent (s : VideoThread) :
    (stop s).model = none ∧
    ((stop s).cap.all fun c => !c.opened) = true ∧
    stop (stop s) = stop s := by
  rcases hc : s.cap with _ | c <;> rcases hm : s.model with _ | m <;>
    first
      | (cases c with
          | mk co cp =>
            cases co <;> simp [stop, release_cap, hc, hm])
      | simp [stop, release_cap, hc, hm]

/-- C9. With no loaded model, `detect_objects` returns the empty detection
list and emits no error, whatever the detector oracle would have produced;
consequently `process_frame` leaves the state unchanged, reports a per-frame
count of 0 and no error: its error branch is unreachable with the model
unset. -/
theorem c9_no_model_empty_detections (s : VideoThread)
    (infer : Except String (List Detection)) (h : s.model = none) :
    detect_objects s infer = ([], none) ∧
    process_frame s infer = (s, 0, none) := by
  have hd : detect_objects s infer = ([], none) := by
    unfold detect_objects
    rw [h]
  refine ⟨hd, ?_⟩
  simp only [process_frame, hd]
  rfl

/-- C9, witness: with no model even a throwing detector oracle produces count
0, no error and an unchanged state. -/
theorem c9_no_model_empty_detections_witness :
    process_frame demo_state (Except.error "inference crashed") =
      (demo_state, 0, none) :=
  (c9_no_model_empty_detections demo_state
    (Except.error "inference crashed") rfl).2

/-- A worker state whose `model_size` was previously customised via the
parameter surface. -/
def c10_state : VideoThread :=
  { initial ∅ with params := { default_params with model_size := 999 } }

/-- C10. A successful `load_model` overwrites `model_size` with the loaded
input size of the loaded model (`args.get("imgsz", 640)`), discarding any previously
configured value; every other configuration field is untouched; the model
and its path are stored and success is reported. -/
theorem c10_load_model_overwrites_model_size (s : VideoThread) (path : String)
    (m : Model) (hext : valid_model_ext path = true) :
    (load_model s path true (Except.ok m)).2 = true ∧
    (load_model s path true (Except.ok m)).1.params.model_size =
      ((m.imgsz.getD 640 : Int) : ℚ) ∧
    (load_model s path true (Except.ok m)).1.params.track_dist =
      s.params.track_dist ∧
    (load_model s path true (Except.ok m)).1.params.detect_bottom =
      s.params.detect_bottom ∧
    (load_model s path true (Except.ok m)).1.params.min_area =
      s.params.min_area ∧
    (load_model s path true (Except.ok m)).1.params.max_area =
      s.params.max_area ∧
    (load_model s path true (Except.ok m)).1.params.model_conf =
      s.params.model_conf ∧
    (load_model s path true (Except.ok m)).1.params.model_nms =
      s.params.model_nms ∧
    (load_model s path true (Except.ok m)).1.params.track_enabled =
      s.params.track_enabled ∧
    (load_model s path true (Except.ok m)).1.params.track_buffer =
      s.params.track_buffer ∧
    (load_model s path true (Except.ok m)).1.params.track_min_hits =
      s.params.track_min_hits ∧
    (load_model s path true (Except.ok m)).1.model = some m ∧
    (load_model s path true (Except.ok m)).1.model_path = path := by
  rcases hm : s.model with _ | m0 <;> simp [load_model, hext, hm]

/-- C10, witness: loading a model with input size 320 over a state whose
`model_size` was customised to 999 yields 320 and leaves `model_conf`
untouched. -/
theorem c10_load_model_overwrites_model_size_witness :
    (load_model c10_state "best.pt" true
        (Except.ok { imgsz := some 320 })).1.params.model_size = 320 ∧
    (load_model c10_state "best.pt" true
        (Except.ok { imgsz := some 320 })).1.params.model_conf =
      c10_state.params.model_conf := by
  have h := c10_load_model_overwrites_model_size c10_state "best.pt"
    { imgsz := some 320 } (by decide)
  exact ⟨by rw [h.2.1]; norm_num, h.2.2.2.2.2.2.1⟩

end JC
